import Mathlib

/-!
Verification of the radiustechsystems/sdk Python SDK (transaction lifecycle
and contract-invocation pipeline) against its natural-language specification.

The Python source under src/python/src is shallow-embedded below:
pure helpers become Lean functions, RPC and signing I/O is modelled by
explicit oracle records, and Python exceptions become an Except error
channel.  Python bytes values are lists of Fin 256, Python str values are
Lean String / List Char.
-/

namespace RadiusSDK

/-- A single byte, as stored in a Python bytes object. -/
abbrev Byte : Type := Fin 256

/-- Lowercase hex digit for a value below 16, as produced by the Python
bytes.hex method (0-9 then a-f). -/
def hexChar (n : Nat) : Char :=
  if n < 10 then Char.ofNat (48 + n) else Char.ofNat (87 + n)

/-- Two lowercase hex digits of one byte, most significant first
(bytes.hex emits each byte this way). -/
def byteToHex (b : Byte) : List Char :=
  [hexChar (b.val / 16), hexChar (b.val % 16)]

/-- Hex digits of a whole bytes object, in order (Python bytes.hex). -/
def bytesToHex : List Byte → List Char
  | [] => []
  | b :: rest => byteToHex b ++ bytesToHex rest

/-- Value of one hex digit accepted by Python bytes.fromhex:
0-9, a-f and A-F. -/
def hexVal (c : Char) : Option Nat :=
  if '0' ≤ c ∧ c ≤ '9' then some (c.toNat - 48)
  else if 'a' ≤ c ∧ c ≤ 'f' then some (c.toNat - 87)
  else if 'A' ≤ c ∧ c ≤ 'F' then some (c.toNat - 55)
  else none

/-- Combine two hex digits into one byte, as bytes.fromhex does per pair. -/
def hexPairVal (a b : Char) : Option Byte :=
  match hexVal a, hexVal b with
  | some hi, some lo =>
    if h : hi * 16 + lo < 256 then some ⟨hi * 16 + lo, h⟩ else none
  | _, _ => none

/-- Python bytes.fromhex over a list of characters: consumes the digits two
at a time, failing on an odd count or a non-hex character. -/
def fromHexChars : List Char → Option (List Byte)
  | [] => some []
  | [_] => none
  | a :: b :: rest =>
    match hexPairVal a b, fromHexChars rest with
    | some v, some vs => some (v :: vs)
    | _, _ => none

/-- Character class of the address / hash regular expressions:
[0-9a-fA-F]. -/
def isHexCharB (c : Char) : Bool :=
  (decide ('0' ≤ c ∧ c ≤ '9')) || (decide ('a' ≤ c ∧ c ≤ 'f')) ||
    (decide ('A' ≤ c ∧ c ≤ 'F'))

/-- The Address.PATTERN regular expression of src/common/address.py:
an optional 0x prefix followed by exactly 40 hex characters. -/
def addressPatternMatch : List Char → Bool
  | '0' :: 'x' :: rest => rest.length = 40 && rest.all isHexCharB
  | s => s.length = 40 && s.all isHexCharB

/-- An Address object: the 20 raw bytes stored by a constructed
src/common/address.py Address. -/
structure Address : Type where
  bytes : List Byte
  deriving DecidableEq

/-- Address.hex (src/common/address.py:46): 0x followed by the lowercase
hex digits of the 20 bytes. -/
def addressHex (a : Address) : List Char :=
  '0' :: 'x' :: bytesToHex a.bytes

/-- A Hash object: the 32 raw bytes stored by a constructed
src/common/hash.py Hash. -/
structure Hash : Type where
  bytes : List Byte
  deriving DecidableEq

/-- Hash.hex (src/common/hash.py): 0x followed by the lowercase hex digits
of the 32 bytes. -/
def hashHex (h : Hash) : List Char :=
  '0' :: 'x' :: bytesToHex h.bytes

/-!
## Receipts, events and the error channel
-/

/-- An Event record (src/common/event.py:15). -/
structure Event : Type where
  address : Address
  topics : List (List Byte)
  data : List Byte
  blockNumber : Nat
  transactionHash : Hash
  transactionIndex : Nat
  blockHash : Hash
  logIndex : Nat
  removed : Bool
  deriving DecidableEq

/-- A Receipt record (src/common/receipt.py:16).  status is the boolean
success flag; contract_address is present only for contract creations. -/
structure Receipt : Type where
  transactionHash : Hash
  blockHash : Hash
  blockNumber : Nat
  contractAddress : Option Address
  fromAddress : Option Address
  toAddress : Option Address
  gasUsed : Nat
  status : Bool
  logs : List Event
  deriving DecidableEq

/-- Python errors raised by the embedded code.  attributeError,
valueError, runtimeError and typeError mirror the exceptions the source
raises, with their message strings.  The transactionReverted constructor
corresponds to the TransactionReverted error of the specification error
taxonomy, which carries the receipt for diagnostics; the embedded source
never produces it (client.py:419 raises a RuntimeError holding only a
formatted message) - the constructor exists so that claims phrased in
terms of that taxonomy can be stated against the code.  fuelExhausted is
the out-of-fuel marker of the poll-loop embedding, unreachable under a
positive poll interval. -/
inductive PyErr : Type where
  | attributeError (attr : String)
  | valueError (msg : String)
  | runtimeError (msg : String)
  | typeError (msg : String)
  | transactionReverted (r : Receipt)
  | fuelExhausted
  deriving DecidableEq

/-- Address.__init__ (src/common/address.py:22): raises ValueError unless
the input is exactly 20 bytes. -/
def addressInit (bs : List Byte) : Except PyErr Address :=
  if bs.length = 20 then .ok ⟨bs⟩
  else .error (.valueError "Address must be exactly 20 bytes")

/-- address_from_hex (src/common/address.py:110): check the pattern, strip
an optional 0x prefix, convert with bytes.fromhex, then run the length-20
constructor check. -/
def addressFromHex (s : List Char) : Except PyErr Address :=
  if addressPatternMatch s then
    let clean : List Char := match s with
      | '0' :: 'x' :: rest => rest
      | other => other
    match fromHexChars clean with
    | some bs => addressInit bs
    | none => .error (.valueError "Invalid address hex")
  else .error (.valueError "Invalid address format")

/-!
## Python attribute semantics for Transaction objects

src/client/client.py reads the attribute named gas from Transaction values
(client.py:207, 281, 354) although the Transaction dataclass
(src/common/transaction.py:15) declares the fields to, data, value, nonce,
gas_price and gas_limit and no field named gas.  In Python, reading an
attribute a dataclass instance does not have raises AttributeError, while
assigning it creates a fresh attribute.  To let that behaviour emerge from
the data model instead of being hand-coded, a Transaction object is
embedded as its attribute dictionary: the list of (name, value) pairs the
dataclass constructor stores, read and written through getattr / setattr
below. -/

/-- A Python attribute value as it occurs on Transaction objects:
None, an int, an Address, or a bytes payload. -/
inductive PyValue : Type where
  | none
  | int (n : Int)
  | addr (a : Address)
  | bytes (b : List Byte)
  deriving DecidableEq

/-- The attribute dictionary of one Python object. -/
abbrev PyAttrs : Type := List (String × PyValue)

/-- Attribute read: AttributeError when the name is absent. -/
def pyGetAttr (o : PyAttrs) (name : String) : Except PyErr PyValue :=
  match o.lookup name with
  | some v => .ok v
  | Option.none => .error (.attributeError name)

/-- Attribute write: replaces an existing binding, otherwise appends a new
one (Python object attribute assignment never fails on a plain class). -/
def pySetAttr (o : PyAttrs) (name : String) (v : PyValue) : PyAttrs :=
  match o with
  | [] => [(name, v)]
  | (n, w) :: rest =>
    if n = name then (n, v) :: rest else (n, w) :: pySetAttr rest name v

/-- Transaction.__init__ (the dataclass of src/common/transaction.py:15):
stores the six declared fields, in declaration order, with their defaults
when a caller omits them. -/
def transactionMk (toAddr : Option Address) (data : List Byte) (value : Int)
    (nonce gasPrice gasLimit : Option Int) : PyAttrs :=
  [("to", match toAddr with | some a => .addr a | Option.none => .none),
   ("data", .bytes data),
   ("value", .int value),
   ("nonce", match nonce with | some n => .int n | Option.none => .none),
   ("gas_price", match gasPrice with | some p => .int p | Option.none => .none),
   ("gas_limit", match gasLimit with | some g => .int g | Option.none => .none)]

/-!
## The confirmation poll loop

Client._wait_for_transaction (src/client/client.py:395-425) repeatedly
queries the receipt.  Its I/O is modelled by an oracle
polls : Nat → Option Receipt giving the result of the k-th
_get_transaction_receipt call, and its clock by the idealisation that the
RPC queries are instantaneous while each asyncio.sleep advances the clock
by the poll interval: at the start of iteration k (zero-based) the elapsed
time is exactly k sleeps, that is k * pollIntervalMs milliseconds.  The
loop is written with explicit fuel; the top-level wrapper supplies more
fuel than the timeout check ever allows iterations, so the fuelExhausted
branch is unreachable for a positive poll interval. -/

/-- Message of the RuntimeError raised at client.py:419 when the receipt
status is falsy. -/
def revertMsg (txHash : Hash) : String :=
  "Transaction " ++ String.mk (hashHex txHash) ++ " failed"

/-- Message of the RuntimeError raised at client.py:423 on timeout. -/
def timeoutMsg (txHash : Hash) : String :=
  "Timeout waiting for receipt of transaction " ++ String.mk (hashHex txHash)

/-- One-loop body of _wait_for_transaction, iterated on fuel.  k is the
zero-based iteration index; on success the result carries the receipt, the
number of receipt queries made (k + 1) and the number of interval sleeps
taken (k).  The Python condition receipt.status == 0 holds exactly when
the boolean status is false. -/
def waitAux (polls : Nat → Option Receipt) (txHash : Hash)
    (timeoutMs pollIntervalMs : Nat) : Nat → Nat → Except PyErr (Receipt × Nat × Nat)
  | 0, _ => .error .fuelExhausted
  | fuel + 1, k =>
    match polls k with
    | some r =>
      if r.status = false then .error (.runtimeError (revertMsg txHash))
      else .ok (r, k + 1, k)
    | Option.none =>
      if k * pollIntervalMs > timeoutMs then
        .error (.runtimeError (timeoutMsg txHash))
      else
        waitAux polls txHash timeoutMs pollIntervalMs fuel (k + 1)

/-- Client._wait_for_transaction (src/client/client.py:395-425) with its
receipt-query oracle; timeout_secs and poll_interval_ms default to 60 and
500 at the call sites.  Returns the receipt together with the number of
receipt queries and of interval sleeps performed. -/
def waitForTransaction (polls : Nat → Option Receipt) (txHash : Hash)
    (timeoutSecs pollIntervalMs : Nat) : Except PyErr (Receipt × Nat × Nat) :=
  waitAux polls txHash (timeoutSecs * 1000) pollIntervalMs
    (timeoutSecs * 1000 / pollIntervalMs + 2) 0

/-!
## Client orchestration (execute, send, deploy_contract)

The RPC operations a Client performs during one orchestrated call are
modelled by an oracle record; each field is the outcome the node returns
for that query.  transact covers the sign-submit-confirm suffix
(Client.transact, client.py:300-311): it maps the transaction handed to
the signer to the confirmed receipt. -/

/-- Outcomes of the RPC and signing collaborators during one orchestrated
client call. -/
structure ClientOracle : Type where
  pendingNonce : Except PyErr Int
  estimateGas : PyAttrs → Except PyErr Int
  gasPriceQuery : Except PyErr Int
  transact : PyAttrs → Except PyErr Receipt

/-- Python int(g * 1.2): the float product truncated to an integer.  For
every gas estimate below 2 ^ 52 the double rounding of g * 1.2 never
crosses an integer boundary, so the value equals the exact floor
g * 12 / 10, which is how it is embedded (gas estimates are far below that
bound). -/
def gasMargin20 (g : Int) : Int := g * 12 / 10

/-- Python int(e * 1.1), embedded as the exact floor e * 11 / 10 on the
same grounds as gasMargin20. -/
def gasMargin10 (e : Int) : Int := e * 11 / 10

/-- The field-completion stage shared by Client.execute (client.py:202-217),
Client.send (client.py:276-292) and Client.deploy_contract
(client.py:349-364), which is textually identical in the three methods:
fill the nonce from the pending nonce when absent, then read the attribute
named gas (client.py:207) - the step that raises AttributeError because
Transaction objects carry no such attribute - then the gas-price branch
with its 1 gwei fallback.  Returns the completed transaction object that
is then handed to Signer.sign_transaction. -/
def clientCompleteTx (c : ClientOracle) (tx : PyAttrs) : Except PyErr PyAttrs := do
  let nonceV ← pyGetAttr tx "nonce"
  let tx ← if nonceV = PyValue.none then do
      let n ← c.pendingNonce
      pure (pySetAttr tx "nonce" (.int n))
    else pure tx
  let gasV ← pyGetAttr tx "gas"
  let tx ← if gasV = PyValue.none then do
      let g ← c.estimateGas tx
      pure (pySetAttr tx "gas" (.int (gasMargin20 g)))
    else pure tx
  let priceV ← pyGetAttr tx "gas_price"
  let tx ← if priceV = PyValue.none then
      match c.gasPriceQuery with
      | .ok p => pure (pySetAttr tx "gas_price" (.int p))
      | .error _ => pure (pySetAttr tx "gas_price" (.int 1000000000))
    else pure tx
  pure tx

/-- Client.execute (src/client/client.py:172-221) up to the
signer.sign_transaction call: builds Transaction(to, data, value) for the
encoded method call and runs the completion stage.  The value returned is
the transaction object handed to the Signer. -/
def clientExecuteToSigner (c : ClientOracle) (contractAddr : Address)
    (data : List Byte) (value : Int) : Except PyErr PyAttrs :=
  clientCompleteTx c
    (transactionMk (some contractAddr) data value Option.none Option.none Option.none)

/-- Client.send (src/client/client.py:253-298) up to the
signer.sign_transaction call: builds Transaction(to, value, data=b"") and
runs the completion stage. -/
def clientSendToSigner (c : ClientOracle) (recipient : Address)
    (value : Int) : Except PyErr PyAttrs :=
  clientCompleteTx c
    (transactionMk (some recipient) [] value Option.none Option.none Option.none)

/-- Client.deploy_contract (src/client/client.py:313-377), called without
constructor arguments: requires nonempty bytecode, builds
Transaction(to=None, data=bytecode, value), completes it, signs and
submits it (the transact oracle), and, when the confirmed receipt carries
no contract_address, raises the deployment-failure RuntimeError of
client.py:371.  On success it returns the address wrapped into the new
Contract. -/
def clientDeployContract (c : ClientOracle) (bytecode : List Byte)
    (value : Int) : Except PyErr Address := do
  if bytecode = [] then
    throw (.valueError "Contract bytecode is required")
  let tx := transactionMk Option.none bytecode value Option.none Option.none Option.none
  let tx ← clientCompleteTx c tx
  let receipt ← c.transact tx
  match receipt.contractAddress with
  | Option.none =>
    throw (.runtimeError "Contract deployment succeeded but no contract address was returned")
  | some addr => pure addr

/-!
## Signers

Both signer variants (src/auth/privatekey/signer.py and
src/auth/clef/signer.py) validate the transaction, fetch the chain id from
their SignerClient, convert the transaction with to_eth_transaction
(src/providers/eth/utils.py:61-92) and hand the resulting
legacy-transaction dictionary to the signing primitive (eth_account for
the private-key variant, the Clef account_signTransaction RPC for the Clef
variant).  The signing primitives are opaque cryptography; the embedding
stops at that boundary and returns the dictionary handed to them, which is
where the chain id and the completed fields are observable.

The SignerClient collaborator is modelled with its chain_id responses as a
sequence indexed by how many chain_id RPC calls were made before: both
sign_transaction implementations issue one fresh chain_id RPC per
invocation (privatekey/signer.py:92, clef/signer.py:82), so the i-th sign
call on a signer reads chainIdAt i.  Neither __init__ touches the chain
id: Private-key construction only parses the key and derives the address,
Clef construction only probes account_list. -/

/-- SignerClient collaborator outcomes: the pending transaction count and
the chain id returned to the i-th chain_id RPC call made through this
client. -/
structure SignerClientOracle : Type where
  getTransactionCount : Int
  chainIdAt : Nat → Int

/-- The legacy Ethereum transaction dictionary built by
to_eth_transaction, plus the chainId (and for Clef the from entry) added
by the signers before signing.  A field holds none when the corresponding
key is absent from the dictionary.  The source renders the to entry as a
checksummed hex string and the numeric entries as hex strings; the
embedding keeps the underlying values, since the rendering is injective
and claim-irrelevant. -/
structure EthTx : Type where
  toEntry : Option Address
  dataEntry : Option (List Byte)
  valueEntry : Option Int
  nonceEntry : Option Int
  gasPriceEntry : Option Int
  gasEntry : Option Int
  chainIdEntry : Option Int
  fromEntry : Option Address
  deriving DecidableEq

/-- to_eth_transaction (src/providers/eth/utils.py:61-92): each key is set
only under the source condition (to when not None, data when nonempty,
value when positive, nonce / gasPrice / gas when not None). -/
def ethTxOfTransaction (tx : PyAttrs) : Except PyErr EthTx := do
  let toV ← pyGetAttr tx "to"
  let toE ← match toV with
    | .addr a => pure (some a)
    | .none => pure Option.none
    | _ => throw (.typeError "to")
  let dataV ← pyGetAttr tx "data"
  let dataE ← match dataV with
    | .bytes b => pure (if b = [] then Option.none else some b)
    | _ => throw (.typeError "data")
  let valueV ← pyGetAttr tx "value"
  let valueE ← match valueV with
    | .int v => pure (if v > 0 then some v else Option.none)
    | _ => throw (.typeError "value")
  let nonceV ← pyGetAttr tx "nonce"
  let nonceE ← match nonceV with
    | .int n => pure (some n)
    | .none => pure Option.none
    | _ => throw (.typeError "nonce")
  let priceV ← pyGetAttr tx "gas_price"
  let priceE ← match priceV with
    | .int p => pure (some p)
    | .none => pure Option.none
    | _ => throw (.typeError "gas_price")
  let limitV ← pyGetAttr tx "gas_limit"
  let limitE ← match limitV with
    | .int g => pure (some g)
    | .none => pure Option.none
    | _ => throw (.typeError "gas_limit")
  pure ⟨toE, dataE, valueE, nonceE, priceE, limitE, Option.none, Option.none⟩

/-- PrivateKeySigner.sign_transaction (src/auth/privatekey/signer.py:68-109)
up to the eth_account signing call: fill nonce from the client when
absent, raise RuntimeError when gas_price or gas_limit is None, fetch the
chain id (the chainIdCall-th chain_id RPC of this client), and return the
eth_tx dictionary handed to the key, together with the (possibly
nonce-filled) transaction object embedded into the SignedTransaction. -/
def privateKeySignToCrypto (client : SignerClientOracle) (chainIdCall : Nat)
    (tx : PyAttrs) : Except PyErr (EthTx × PyAttrs) := do
  let nonceV ← pyGetAttr tx "nonce"
  let tx ← if nonceV = PyValue.none then
      pure (pySetAttr tx "nonce" (.int client.getTransactionCount))
    else pure tx
  let priceV ← pyGetAttr tx "gas_price"
  if priceV = PyValue.none then
    throw (.runtimeError "Transaction must have a gas price")
  let limitV ← pyGetAttr tx "gas_limit"
  if limitV = PyValue.none then
    throw (.runtimeError "Transaction must have a gas limit")
  let chainId := client.chainIdAt chainIdCall
  let ethTx ← ethTxOfTransaction tx
  pure ({ ethTx with chainIdEntry := some chainId }, tx)

/-- ClefSigner.sign_transaction (src/auth/clef/signer.py:58-107) up to the
account_signTransaction request: identical validation and chain id fetch,
plus the from entry carrying the signer address.  Returns the eth_tx
dictionary handed to the Clef service. -/
def clefSignToService (client : SignerClientOracle) (signerAddr : Address)
    (chainIdCall : Nat) (tx : PyAttrs) : Except PyErr (EthTx × PyAttrs) := do
  let nonceV ← pyGetAttr tx "nonce"
  let tx ← if nonceV = PyValue.none then
      pure (pySetAttr tx "nonce" (.int client.getTransactionCount))
    else pure tx
  let priceV ← pyGetAttr tx "gas_price"
  if priceV = PyValue.none then
    throw (.runtimeError "Transaction must have a gas price")
  let limitV ← pyGetAttr tx "gas_limit"
  if limitV = PyValue.none then
    throw (.runtimeError "Transaction must have a gas limit")
  let chainId := client.chainIdAt chainIdCall
  let ethTx ← ethTxOfTransaction tx
  pure ({ ethTx with chainIdEntry := some chainId, fromEntry := some signerAddr }, tx)

/-!
## Account.send_transaction

Account.send_transaction (src/accounts/account.py:129-162) completes the
transaction with the gas_limit attribute (unlike client.py it uses the
declared field name), applying min(MAX_GAS, int(estimate * 1.1)).  MAX_GAS
is imported from src/common/constants.py, a module absent from the source
tree, so its numeric value is unknown; it is taken as a parameter and the
claims about this path hold for every value. -/

/-- The AccountClient collaborator outcomes used by the completion stage of
Account.send_transaction. -/
structure AccountOracle : Type where
  getTransactionCount : Int
  estimateGas : PyAttrs → Except PyErr Int

/-- Account.send_transaction (src/accounts/account.py:149-156) up to the
sign_transaction call: fill nonce when absent, then, when gas_limit is
absent, set it to min(MAX_GAS, int(estimate * 1.1)).  Returns the
transaction object handed to the signer. -/
def accountSendTransactionPrep (maxGas : Int) (client : AccountOracle)
    (tx : PyAttrs) : Except PyErr PyAttrs := do
  let nonceV ← pyGetAttr tx "nonce"
  let tx ← if nonceV = PyValue.none then
      pure (pySetAttr tx "nonce" (.int client.getTransactionCount))
    else pure tx
  let limitV ← pyGetAttr tx "gas_limit"
  let tx ← if limitV = PyValue.none then do
      let e ← client.estimateGas tx
      pure (pySetAttr tx "gas_limit" (.int (min maxGas (gasMargin10 e))))
    else pure tx
  pure tx

/-!
## ABI result decoding for a single uint256 output

ABI.decode_function_result (src/common/abi.py:122-177), specialised to a
method whose declared outputs are exactly one uint256 (the case the
specification fallback is about): empty data returns the empty list;
otherwise the data is decoded strictly with the external eth-abi library,
and when that raises, the fallback of abi.py:169-172 returns
int.from_bytes(data, big-endian). -/

/-- Big-endian integer value of a bytes object
(Python int.from_bytes(data, byteorder=big)). -/
def beBytesToNat (bs : List Byte) : Nat :=
  bs.foldl (fun acc b => acc * 256 + b.val) 0

/-- Model of the external eth-abi collaborator decoding a single uint256
output: the decoder reads exactly 32 bytes from the data stream and raises
InsufficientDataBytes when fewer are available; trailing bytes beyond the
first 32 are not consumed and a full-width uint256 has no padding to
check, so the decode fails precisely on data shorter than 32 bytes. -/
def strictDecodeUint256 (data : List Byte) : Option Nat :=
  if data.length < 32 then Option.none
  else some (beBytesToNat (data.take 32))

/-- decode_function_result (src/common/abi.py:122-177) for a method whose
outputs are [uint256]: the not-data guard of abi.py:141, then the strict
decode of abi.py:159, then the uint256 fallback of abi.py:169-172. -/
def decodeFunctionResultUint256 (data : List Byte) : Except PyErr (List Nat) :=
  if data = [] then .ok []
  else
    match strictDecodeUint256 data with
    | some v => .ok [v]
    | Option.none => .ok [beBytesToNat data]

/-!
## Concrete fixtures used by the closed theorems
-/

/-- A 20-byte address (all zeros). -/
def addrX : Address := ⟨List.replicate 20 (0 : Byte)⟩

/-- A 32-byte transaction hash (all zeros). -/
def hash0 : Hash := ⟨List.replicate 32 (0 : Byte)⟩

/-- A successful receipt without a contract address. -/
def receiptOk : Receipt :=
  ⟨hash0, hash0, 1, Option.none, Option.none, Option.none, 21000, true, []⟩

/-- A reverted receipt (status false). -/
def receiptReverted : Receipt := { receiptOk with status := false }

/-- The scenario-A collaborator outcomes: pending nonce 5, gas estimate
21000, network gas price 1000000000. -/
def scenarioAOracle : ClientOracle :=
  ⟨.ok 5, fun _ => .ok 21000, .ok 1000000000, fun _ => .ok receiptOk⟩

/-- The scenario-B collaborator outcomes: the gas-price query raises. -/
def scenarioBOracle : ClientOracle :=
  ⟨.ok 5, fun _ => .ok 21000, .error (.runtimeError "JSON-RPC error: boom"),
    fun _ => .ok receiptOk⟩

/-- The scenario-C collaborator outcomes: confirmation succeeds with a
receipt that lacks a contract address. -/
def scenarioCOracle : ClientOracle :=
  ⟨.ok 5, fun _ => .ok 21000, .ok 1000000000, fun _ => .ok receiptOk⟩

/-!
## Poll-loop lemmas
-/

/-- One loop iteration on an empty poll before the timeout: consume one
fuel, advance to the next query. -/
theorem waitAux_step_none (polls : Nat → Option Receipt) (txHash : Hash)
    (timeoutMs intervalMs fuel k : Nat) (h0 : polls k = Option.none)
    (ht : ¬ k * intervalMs > timeoutMs) :
    waitAux polls txHash timeoutMs intervalMs (fuel + 1) k
      = waitAux polls txHash timeoutMs intervalMs fuel (k + 1) := by
  simp [waitAux, h0, ht]

/-- One loop iteration on a returned receipt: revert check, then success. -/
theorem waitAux_step_receipt (polls : Nat → Option Receipt) (txHash : Hash)
    (timeoutMs intervalMs fuel k : Nat) (r : Receipt) (h0 : polls k = some r) :
    waitAux polls txHash timeoutMs intervalMs (fuel + 1) k
      = if r.status = false then Except.error (.runtimeError (revertMsg txHash))
        else Except.ok (r, k + 1, k) := by
  simp [waitAux, h0]

/-- Skipping N consecutive empty polls that all happen before the timeout
consumes N fuel and advances the query index by N. -/
theorem waitAux_skip (polls : Nat → Option Receipt) (txHash : Hash)
    (timeoutMs intervalMs : Nat) :
    ∀ (N fuel k : Nat), (∀ j, j < N → polls (k + j) = Option.none) →
      (∀ j, j < N → (k + j) * intervalMs ≤ timeoutMs) →
      waitAux polls txHash timeoutMs intervalMs (fuel + N) k
        = waitAux polls txHash timeoutMs intervalMs fuel (k + N) := by
  intro N
  induction N with
  | zero => intro fuel k _ _; rfl
  | succ n ih =>
    intro fuel k hnone hto
    have h0 : polls k = Option.none := by simpa using hnone 0 (Nat.succ_pos n)
    have ht0 : ¬ k * intervalMs > timeoutMs := by
      have := hto 0 (Nat.succ_pos n)
      simpa using Nat.not_lt.mpr (by simpa using this)
    have hfe : fuel + (n + 1) = (fuel + n) + 1 := by omega
    rw [hfe, waitAux_step_none polls txHash timeoutMs intervalMs (fuel + n) k h0 ht0]
    have hrec := ih fuel (k + 1)
      (fun j hj => by
        have := hnone (j + 1) (by omega)
        simpa [Nat.add_assoc, Nat.add_comm 1 j] using this)
      (fun j hj => by
        have := hto (j + 1) (by omega)
        simpa [Nat.add_assoc, Nat.add_comm 1 j] using this)
    rw [hrec]
    have : k + 1 + n = k + (n + 1) := by omega
    rw [this]

/-- When the first k polls are empty and k sleeps stay within the timeout,
the loop reaches query index k with positive fuel remaining. -/
theorem waitForTransaction_reach (polls : Nat → Option Receipt) (txHash : Hash)
    (timeoutSecs intervalMs k : Nat)
    (hnone : ∀ j, j < k → polls j = Option.none) (hiv : 0 < intervalMs)
    (ht : k * intervalMs ≤ timeoutSecs * 1000) :
    ∃ m, waitForTransaction polls txHash timeoutSecs intervalMs
      = waitAux polls txHash (timeoutSecs * 1000) intervalMs (m + 1) k := by
  have hk : k ≤ timeoutSecs * 1000 / intervalMs :=
    (Nat.le_div_iff_mul_le hiv).mpr ht
  refine ⟨timeoutSecs * 1000 / intervalMs + 1 - k, ?_⟩
  unfold waitForTransaction
  have hfuel : timeoutSecs * 1000 / intervalMs + 2
      = (timeoutSecs * 1000 / intervalMs + 1 - k + 1) + k := by omega
  rw [hfuel,
    waitAux_skip polls txHash (timeoutSecs * 1000) intervalMs k
      (timeoutSecs * 1000 / intervalMs + 1 - k + 1) 0
      (fun j hj => by simpa using hnone j hj)
      (fun j hj => by
        have hj' : j * intervalMs ≤ k * intervalMs :=
          Nat.mul_le_mul_right intervalMs (Nat.le_of_lt hj)
        simpa using hj'.trans ht)]
  simp

/-!
## Claim theorems: confirmation poll loop (C3, C4)
-/

/-- C3 (counterexample).  A run in which every receipt query returns a
status-false receipt: _wait_for_transaction raises the RuntimeError of
client.py:419, whose payload is only the formatted message naming the
transaction hash - it is not an error carrying the receipt, so the claim
that the failure carries that receipt for diagnostics is false on the
code. -/
theorem wait_reverted_error_carries_no_receipt :
    waitForTransaction (fun _ => some receiptReverted) hash0 60 500
        = .error (.runtimeError (revertMsg hash0))
      ∧ ¬ ∃ r, waitForTransaction (fun _ => some receiptReverted) hash0 60 500
        = .error (.transactionReverted r) := by
  have he : waitForTransaction (fun _ => some receiptReverted) hash0 60 500
      = .error (.runtimeError (revertMsg hash0)) := rfl
  refine ⟨he, ?_⟩
  rintro ⟨r, h⟩
  rw [he] at h
  exact PyErr.noConfusion (Except.error.inj h)

/-- C3 (amended).  For every transaction hash whose receipt query returns
a receipt with status false (after any number of empty polls, before the
timeout), the confirmation loop fails - it never treats the outcome as a
successful completion - by raising RuntimeError with a message naming the
transaction hash; the receipt itself is not attached to the error. -/
theorem wait_reverted_fails (polls : Nat → Option Receipt) (txHash : Hash)
    (timeoutSecs intervalMs k : Nat) (r : Receipt)
    (hnone : ∀ j, j < k → polls j = Option.none) (hk : polls k = some r)
    (hst : r.status = false) (hiv : 0 < intervalMs)
    (ht : k * intervalMs ≤ timeoutSecs * 1000) :
    waitForTransaction polls txHash timeoutSecs intervalMs
      = .error (.runtimeError (revertMsg txHash)) := by
  obtain ⟨m, hm⟩ :=
    waitForTransaction_reach polls txHash timeoutSecs intervalMs k hnone hiv ht
  rw [hm, waitAux_step_receipt polls txHash (timeoutSecs * 1000) intervalMs m k r hk,
    if_pos hst]

/-- C3 (witness): one empty poll, then a reverted receipt. -/
theorem wait_reverted_fails_witness :
    waitForTransaction (fun j => if j = 0 then Option.none else some receiptReverted)
        hash0 60 500 = .error (.runtimeError (revertMsg hash0)) :=
  wait_reverted_fails (fun j => if j = 0 then Option.none else some receiptReverted)
    hash0 60 500 1 receiptReverted
    (fun j hj => by have hj0 : j = 0 := by omega
                    subst hj0; rfl) rfl rfl (by decide) (by decide)

/-- C4.  For every N, when the receipt query returns nothing for the first
N polls and then a status-true receipt, with the N sleeps fitting inside
the timeout, _wait_for_transaction returns that receipt having performed
exactly N + 1 receipt queries and N poll-interval sleeps between
consecutive queries. -/
theorem wait_success_polls_n_plus_one (polls : Nat → Option Receipt)
    (txHash : Hash) (timeoutSecs intervalMs N : Nat) (r : Receipt)
    (hnone : ∀ j, j < N → polls j = Option.none) (hk : polls N = some r)
    (hst : r.status = true) (hiv : 0 < intervalMs)
    (ht : N * intervalMs ≤ timeoutSecs * 1000) :
    waitForTransaction polls txHash timeoutSecs intervalMs = .ok (r, N + 1, N) := by
  obtain ⟨m, hm⟩ :=
    waitForTransaction_reach polls txHash timeoutSecs intervalMs N hnone hiv ht
  rw [hm, waitAux_step_receipt polls txHash (timeoutSecs * 1000) intervalMs m N r hk,
    if_neg (by simp [hst])]

/-- C4 (witness): two empty polls, then a successful receipt, at the
default 60 s timeout and 500 ms interval: three queries, two sleeps. -/
theorem wait_success_polls_n_plus_one_witness :
    waitForTransaction (fun k => if k < 2 then Option.none else some receiptOk)
        hash0 60 500 = .ok (receiptOk, 3, 2) :=
  wait_success_polls_n_plus_one
    (fun k => if k < 2 then Option.none else some receiptOk) hash0 60 500 2
    receiptOk (fun j hj => by interval_cases j <;> rfl) rfl rfl (by decide) (by decide)

/-!
## Claim theorems: orchestrated execute / send / deploy (C1, C2, C8)

The three completion stages of client.py read the attribute named gas from
the Transaction object (client.py:207, 281, 354) while the dataclass field
is named gas_limit, so every orchestrated execute, send and deploy raises
AttributeError at that step, before the gas-price branch, before signing
and before the deployment-address check. -/

/-- C1.  Scenario A: execute with no nonce / gas fields, against a node
returning nonce 5, gas estimate 21000, gas price 1000000000.  The
orchestrator never hands a transaction to the Signer: it raises
AttributeError for the attribute gas at the gas-limit completion step. -/
theorem execute_scenario_a_raises_gas_attribute_error :
    clientExecuteToSigner scenarioAOracle addrX [] 100
      = .error (.attributeError "gas") := rfl

/-- C2.  Scenario B: send with an absent gas price and a failing gas-price
query.  The orchestrated send aborts with AttributeError for the attribute
gas before the gas-price fallback branch is ever reached, so no
transaction proceeds with the 1000000000 fallback. -/
theorem send_gas_price_fallback_unreachable :
    clientSendToSigner scenarioBOracle addrX 100
      = .error (.attributeError "gas") := rfl

/-- C8.  Scenario C: deployment whose confirmation would succeed with a
receipt lacking a contract address.  Client.deploy_contract raises
AttributeError for the attribute gas during field completion, so the
deployment never reaches the deployment-failure check of client.py:370. -/
theorem deploy_contract_raises_gas_attribute_error :
    clientDeployContract scenarioCOracle [96] 0
      = .error (.attributeError "gas") := rfl

/-!
## Address hex round trip (C9)
-/

set_option maxRecDepth 4096 in
/-- Parsing the two hex digits bytes.hex emits for a byte gives the byte
back. -/
theorem hexPairVal_byteToHex :
    ∀ b : Fin 256, hexPairVal (hexChar (b.val / 16)) (hexChar (b.val % 16)) = some b := by
  decide

set_option maxRecDepth 4096 in
/-- Both digits bytes.hex emits are in the pattern character class. -/
theorem byteToHex_all_hex : ∀ b : Fin 256, (byteToHex b).all isHexCharB = true := by
  decide

/-- bytes.hex emits two characters per byte. -/
theorem bytesToHex_length (bs : List Byte) :
    (bytesToHex bs).length = 2 * bs.length := by
  induction bs with
  | nil => rfl
  | cons b rest ih =>
    simp [bytesToHex, byteToHex, ih]
    omega

/-- Every character bytes.hex emits is in the pattern character class. -/
theorem bytesToHex_all_hex (bs : List Byte) :
    (bytesToHex bs).all isHexCharB = true := by
  induction bs with
  | nil => rfl
  | cons b rest ih =>
    have hb := byteToHex_all_hex b
    simp only [bytesToHex, List.all_append, ih, hb, Bool.and_self]

/-- bytes.fromhex inverts bytes.hex. -/
theorem fromHexChars_bytesToHex (bs : List Byte) :
    fromHexChars (bytesToHex bs) = some bs := by
  induction bs with
  | nil => rfl
  | cons b rest ih =>
    show fromHexChars (byteToHex b ++ bytesToHex rest) = some (b :: rest)
    simp [byteToHex, fromHexChars, hexPairVal_byteToHex b, ih]

/-- C9.  Every 20-byte input passes the Address constructor, and encoding
it with Address.hex then parsing with address_from_hex returns an equal
Address; every input whose length is not 20 fails the constructor with
ValueError. -/
theorem address_hex_roundtrip_and_length_check :
    (∀ bs : List Byte, bs.length = 20 →
        addressInit bs = .ok ⟨bs⟩
      ∧ addressFromHex (addressHex ⟨bs⟩) = .ok ⟨bs⟩)
  ∧ ∀ bs : List Byte, bs.length ≠ 20 →
      addressInit bs = .error (.valueError "Address must be exactly 20 bytes") := by
  constructor
  · intro bs h20
    have hinit : addressInit bs = .ok ⟨bs⟩ := by simp [addressInit, h20]
    refine ⟨hinit, ?_⟩
    have hpat : addressPatternMatch ('0' :: 'x' :: bytesToHex bs) = true := by
      simp [addressPatternMatch, bytesToHex_length, h20, bytesToHex_all_hex]
    show addressFromHex ('0' :: 'x' :: bytesToHex bs) = .ok ⟨bs⟩
    simp [addressFromHex, hpat, fromHexChars_bytesToHex, hinit]
  · intro bs h20
    simp [addressInit, h20]

/-- C9 (witness): the all-zero 20-byte address round-trips, and a 3-byte
input fails construction. -/
theorem address_hex_roundtrip_witness :
    addressInit (List.replicate 20 (0 : Byte)) = .ok addrX
  ∧ addressFromHex (addressHex addrX) = .ok addrX
  ∧ addressInit [0, 1, 2] = .error (.valueError "Address must be exactly 20 bytes") := by
  obtain ⟨h1, h2⟩ := address_hex_roundtrip_and_length_check
  exact ⟨(h1 (List.replicate 20 (0 : Byte)) (by decide)).1,
    (h1 (List.replicate 20 (0 : Byte)) (by decide)).2,
    h2 [0, 1, 2] (by decide)⟩

/-!
## ABI fallback (C5)
-/

/-- C5.  Whenever the strict decode of a single-uint256 result raises -
which happens exactly on data shorter than 32 bytes -
decode_function_result returns the big-endian integer value of the last
32 bytes of the data.  (The fallback of abi.py:171 reads the whole data
with int.from_bytes; on every input on which the strict decode fails the
whole data and its last 32 bytes coincide.) -/
theorem decode_uint256_fallback_last_32 (data : List Byte)
    (hne : data ≠ []) (hfail : strictDecodeUint256 data = Option.none) :
    decodeFunctionResultUint256 data
      = .ok [beBytesToNat (data.drop (data.length - 32))] := by
  have hlen : data.length < 32 := by
    by_contra h
    simp [strictDecodeUint256, h] at hfail
  have hdrop : data.drop (data.length - 32) = data := by
    have h0 : data.length - 32 = 0 := by omega
    simp [h0]
  rw [hdrop]
  simp [decodeFunctionResultUint256, hne, hfail]

/-- C5 (witness): the one-byte result 0x07 fails the strict decode and
falls back to the integer 7. -/
theorem decode_uint256_fallback_witness :
    decodeFunctionResultUint256 [(7 : Byte)] = .ok [7] :=
  (decode_uint256_fallback_last_32 [(7 : Byte)] (by decide) (by decide)).trans rfl

/-!
## Signer requirements and chain id binding (C6, C7)
-/

/-- A signer client whose pending count is 7 and whose chain id is the
constant 1. -/
def signerClientConst : SignerClientOracle := ⟨7, fun _ => 1⟩

/-- A signer client whose reported chain id changes between the first and
the second chain_id RPC call (1, then 2). -/
def signerClientChanging : SignerClientOracle := ⟨0, fun i => if i = 0 then 1 else 2⟩

/-- A transaction with every field the signers require already present. -/
def txComplete : PyAttrs :=
  transactionMk (some addrX) [] 0 (some 1) (some 1) (some 21000)

/-- C6 (counterexample).  The local-key signer, given a transaction whose
gas_price is absent (gas_limit present), raises RuntimeError instead of
defaulting the gas price to zero. -/
theorem private_key_sign_absent_gas_price_raises :
    privateKeySignToCrypto signerClientConst 0
        (transactionMk (some addrX) [] 0 (some 1) Option.none (some 21000))
      = .error (.runtimeError "Transaction must have a gas price") := rfl

/-- C6 (amended).  Both signer variants fail sign_transaction with
RuntimeError whenever the transaction gas_price or gas_limit is None;
neither variant defaults an absent gas price to zero. -/
theorem signers_require_gas_price_and_limit (client : SignerClientOracle)
    (signerAddr : Address) (i : Nat) (toA : Option Address) (data : List Byte)
    (value : Int) (nonce gp gl : Option Int)
    (h : gp = Option.none ∨ gl = Option.none) :
    (∃ m, privateKeySignToCrypto client i (transactionMk toA data value nonce gp gl)
        = .error (.runtimeError m))
  ∧ (∃ m, clefSignToService client signerAddr i (transactionMk toA data value nonce gp gl)
        = .error (.runtimeError m)) := by
  rcases h with hgp | hgl
  · subst hgp
    cases nonce <;>
      exact ⟨⟨"Transaction must have a gas price", rfl⟩,
        ⟨"Transaction must have a gas price", rfl⟩⟩
  · subst hgl
    cases nonce <;> cases gp <;>
      first
      | exact ⟨⟨"Transaction must have a gas price", rfl⟩,
          ⟨"Transaction must have a gas price", rfl⟩⟩
      | exact ⟨⟨"Transaction must have a gas limit", rfl⟩,
          ⟨"Transaction must have a gas limit", rfl⟩⟩

/-- C6 (witness): a concrete transaction with an absent gas price fails in
both variants. -/
theorem signers_require_gas_price_and_limit_witness :
    (∃ m, privateKeySignToCrypto signerClientConst 0
        (transactionMk (some addrX) [] 0 (some 1) Option.none (some 21000))
      = .error (.runtimeError m))
  ∧ (∃ m, clefSignToService signerClientConst addrX 0
        (transactionMk (some addrX) [] 0 (some 1) Option.none (some 21000))
      = .error (.runtimeError m)) :=
  signers_require_gas_price_and_limit signerClientConst addrX 0 (some addrX) [] 0
    (some 1) Option.none (some 21000) (Or.inl rfl)

/-- C7 (counterexample).  One private-key signer instance, one client: the
first and second sign_transaction calls hand the signing primitive
transactions with different chain ids when the chain id reported by the
client changes between the two underlying chain_id RPC calls - so not all
signatures of one signer instance use the same chain id. -/
theorem signer_chain_id_differs_across_signs :
    ∃ e1 t1 e2 t2,
      privateKeySignToCrypto signerClientChanging 0 txComplete = .ok (e1, t1)
    ∧ privateKeySignToCrypto signerClientChanging 1 txComplete = .ok (e2, t2)
    ∧ e1.chainIdEntry ≠ e2.chainIdEntry := by
  refine ⟨_, _, _, _, rfl, rfl, ?_⟩
  decide

/-- C7 (amended).  Neither signer variant binds a chain id at construction
(private-key construction only parses the key, Clef construction only
probes account_list); every sign_transaction call fetches the chain id
from the client anew, and the i-th such fetch stamps the transaction
handed to the signing primitive with exactly that response. -/
theorem signers_fetch_chain_id_per_sign (client : SignerClientOracle)
    (signerAddr : Address) (i : Nat) (toA : Option Address) (data : List Byte)
    (value n p g : Int) :
    (∃ e t, privateKeySignToCrypto client i
          (transactionMk toA data value (some n) (some p) (some g)) = .ok (e, t)
        ∧ e.chainIdEntry = some (client.chainIdAt i))
  ∧ (∃ e t, clefSignToService client signerAddr i
          (transactionMk toA data value (some n) (some p) (some g)) = .ok (e, t)
        ∧ e.chainIdEntry = some (client.chainIdAt i)
        ∧ e.fromEntry = some signerAddr) := by
  cases toA with
  | none => exact ⟨⟨_, _, rfl, rfl⟩, ⟨_, _, rfl, rfl, rfl⟩⟩
  | some a => exact ⟨⟨_, _, rfl, rfl⟩, ⟨_, _, rfl, rfl, rfl⟩⟩

/-- C7 (witness): with the constant-1 chain id client, both variants stamp
chain id 1 at the first sign call. -/
theorem signers_fetch_chain_id_per_sign_witness :
    (∃ e t, privateKeySignToCrypto signerClientConst 0
          (transactionMk (some addrX) [] 0 (some 1) (some 1) (some 21000)) = .ok (e, t)
        ∧ e.chainIdEntry = some (signerClientConst.chainIdAt 0))
  ∧ (∃ e t, clefSignToService signerClientConst addrX 0
          (transactionMk (some addrX) [] 0 (some 1) (some 1) (some 21000)) = .ok (e, t)
        ∧ e.chainIdEntry = some (signerClientConst.chainIdAt 0)
        ∧ e.fromEntry = some addrX) :=
  signers_fetch_chain_id_per_sign signerClientConst addrX 0 (some addrX) [] 0 1 1 21000

/-!
## Account gas-limit completion (C10)
-/

/-- The nonce-fill step of Account.send_transaction
(src/accounts/account.py:150-151): when the transaction nonce is None it
is set from the client, otherwise the object is unchanged.  The gas
estimate of account.py:155 is taken on this object. -/
def accountNonceFilled (client : AccountOracle) (tx : PyAttrs) : PyAttrs :=
  match tx.lookup "nonce" with
  | some PyValue.none => pySetAttr tx "nonce" (.int client.getTransactionCount)
  | _ => tx

/-- C10.  For every call of Account.send_transaction on a transaction with
an absent gas_limit, the gas limit assigned before signing is
min(MAX_GAS, int(estimate * 1.1)) where estimate is the client gas
estimate on the nonce-filled transaction - in particular the assigned
value never exceeds MAX_GAS, for every value of that constant. -/
theorem account_send_gas_capped (maxGas : Int) (client : AccountOracle)
    (toA : Option Address) (data : List Byte) (value : Int)
    (nonce gp : Option Int) (e : Int)
    (hest : client.estimateGas
        (accountNonceFilled client (transactionMk toA data value nonce gp Option.none))
      = .ok e) :
    accountSendTransactionPrep maxGas client
        (transactionMk toA data value nonce gp Option.none)
      = .ok (pySetAttr
          (accountNonceFilled client (transactionMk toA data value nonce gp Option.none))
          "gas_limit" (.int (min maxGas (gasMargin10 e))))
    ∧ min maxGas (gasMargin10 e) ≤ maxGas := by
  refine ⟨?_, min_le_left _ _⟩
  cases nonce with
  | none =>
    have hts : accountNonceFilled client (transactionMk toA data value Option.none gp Option.none)
        = pySetAttr (transactionMk toA data value Option.none gp Option.none) "nonce"
            (PyValue.int client.getTransactionCount) := rfl
    rw [hts] at hest ⊢
    show Bind.bind
        (client.estimateGas (pySetAttr (transactionMk toA data value Option.none gp Option.none)
          "nonce" (PyValue.int client.getTransactionCount)))
        (fun g => pure (pySetAttr
          (pySetAttr (transactionMk toA data value Option.none gp Option.none)
            "nonce" (PyValue.int client.getTransactionCount))
          "gas_limit" (PyValue.int (min maxGas (gasMargin10 g)))))
      = _
    rw [hest]
    rfl
  | some n =>
    have hts : accountNonceFilled client
          (transactionMk toA data value (some n) gp Option.none)
        = transactionMk toA data value (some n) gp Option.none := rfl
    rw [hts] at hest ⊢
    show Bind.bind
        (client.estimateGas (transactionMk toA data value (some n) gp Option.none))
        (fun g => pure (pySetAttr (transactionMk toA data value (some n) gp Option.none)
          "gas_limit" (PyValue.int (min maxGas (gasMargin10 g)))))
      = _
    rw [hest]
    rfl

/-- C10 (witness): estimate 21000 against MAX_GAS 30000000 assigns
23100 = min(30000000, 21000 * 11 / 10). -/
theorem account_send_gas_capped_witness :
    accountSendTransactionPrep 30000000 ⟨5, fun _ => Except.ok 21000⟩
        (transactionMk Option.none [] 0 Option.none Option.none Option.none)
      = .ok (pySetAttr
          (accountNonceFilled ⟨5, fun _ => Except.ok 21000⟩
            (transactionMk Option.none [] 0 Option.none Option.none Option.none))
          "gas_limit" (.int (min 30000000 (gasMargin10 21000))))
    ∧ min 30000000 (gasMargin10 21000) ≤ 30000000 :=
  account_send_gas_capped 30000000 ⟨5, fun _ => Except.ok 21000⟩ Option.none [] 0
    Option.none Option.none 21000 rfl

end RadiusSDK
